import Mathlib

/-!
Shallow embedding of `src/app/printer.ts` (the `Printer` class of the
vitest-teamcity-reporter repository) and proofs about it.

Modelling conventions:
* TypeScript `undefined`/`null` is `Option`.
* The mutable `result` field of tasks (written by the external test engine
  and read by the reporter at flush / summary time) is modelled as an
  environment `ResultEnv : String → Option TaskResult`, keyed by task id.
* The message-formatting collaborators (`SuitMessage`, `TestMessage`,
  `escape`, `MissingResultError`) are not under `src/`; per the spec they
  are opaque formatting services.  Report lines are therefore modelled as
  an abstract `Line` datatype carrying exactly the content the spec
  assigns to each line shape (§6 of the spec); the `.filter(Boolean)` in
  `handleTest` never drops such an abstract line (the formatters produce
  non-empty strings).
* JS `Map` objects are modelled as association lists with unique-key
  semantics (`mapSet` replaces in place, `mapErase` removes the key).
-/

namespace VReporter

/-- `ErrorWithDiff` from vitest: an error payload with a message and an
optional stack. -/
structure ErrorWithDiff where
  message : String
  stack : Option String
deriving DecidableEq

/-- `TaskResult` from vitest: state string (`"run"`, `"pass"`, `"fail"`, ...),
optional duration, optional error list. -/
structure TaskResult where
  state : String
  duration : Option Nat
  errors : Option (List ErrorWithDiff)
deriving DecidableEq

/-- `UserConsoleLog` from vitest: a console event with a channel tag and
textual content. -/
structure UserConsoleLog where
  channel : String
  content : String
deriving DecidableEq

/-- The fields of a vitest `Test` that `printer.ts` reads, except the mutable
`result` (see `ResultEnv`).  `suiteId` is the id of the owning suite
(`test.suite`), `fileId` the id of the owning file (`test.file`, optional in
the source: it is read with `test.file?.`). -/
structure TestData where
  id : String
  name : String
  mode : String
  suiteId : String
  fileId : Option String
deriving DecidableEq

/-- A node of the vitest task tree: `type === 'test'`, `type === 'suite'`
(with its ordered children), or any other task kind (vitest `custom`).
For suites, `fileId` is the id of the containing file (`suite.file!.id`). -/
inductive Task where
  | test (d : TestData)
  | suite (id name mode fileId : String) (tasks : List Task)
  | custom (id name : String)

/-- The `id` of a task. -/
def Task.id : Task → String
  | .test d => d.id
  | .suite i _ _ _ _ => i
  | .custom i _ => i

/-- The `name` of a task. -/
def Task.name : Task → String
  | .test d => d.name
  | .suite _ n _ _ _ => n
  | .custom _ n => n

/-- A vitest `File`: id, display name and the root list of tasks. -/
structure File where
  id : String
  name : String
  tasks : List Task

/-- The mutable `result` field of every task, read at evaluation time,
keyed by task id. -/
abbrev ResultEnv := String → Option TaskResult

/-- `id.result?.errors` for the task with the given id. -/
def resErrors (ρ : ResultEnv) (id : String) : Option (List ErrorWithDiff) :=
  (ρ id).bind TaskResult.errors

/-- The console-log buffer as a lookup function (what a deferred template
sees at flush time). -/
abbrev ConsoleMap := String → List UserConsoleLog

/-- Abstract report line, one constructor per message shape of spec §6.
The concrete wire syntax is produced by the opaque external formatters. -/
inductive Line where
  | suiteStarted (fileId name : String)
  | suiteFinished (fileId name : String)
  | testStarted (testId : String)
  | testIgnored (testId : String)
  | testLog (testId channel content : String)
  | testFailed (testId : String) (err : ErrorWithDiff)
  | testFinished (testId : String) (duration : Nat)
deriving DecidableEq

/-- Modelled from the spec: the name sanitizer `escape` (src/app/escape.ts is
not under src/).  The spec specifies only "string → string, total, no failure
path"; no claim depends on its behaviour, so it is modelled as the identity
instance of that contract. -/
def escape (s : String) : String := s

/-- Modelled from the spec: `MissingResultError` (src/app/error/ is not under
src/), "a single synthetic error signaling that no result was recorded for
this test". -/
def missingResultError (t : TestData) : ErrorWithDiff :=
  { message := "No result was recorded for test " ++ t.name, stack := none }

/-- `getTestErrors` of printer.ts:
`test.result?.errors ?? test.suite.result?.errors ?? test.file?.result?.errors
?? [new MissingResultError(test)]`.  Note `??` falls through only when the
left side is nullish, not when it is an empty array. -/
def getTestErrors (ρ : ResultEnv) (t : TestData) : List ErrorWithDiff :=
  (((resErrors ρ t.id).orElse fun _ => resErrors ρ t.suiteId).orElse
      fun _ => t.fileId.bind (resErrors ρ)).getD [missingResultError t]

/-- The `fail` condition of `handleTest`'s deferred producer:
`(test.result == null) || test.result.state === 'fail'`. -/
def testFails (ρ : ResultEnv) (t : TestData) : Bool :=
  match ρ t.id with
  | none => true
  | some r => r.state == "fail"

/-- A buffered message: the source's `string | (() => string | string[])`.
Every non-string template built by printer.ts is the deferred producer of
`handleTest` for one specific test, so the closure is represented by the
test it captures. -/
inductive PotentialMessage where
  | literal (line : Line)
  | deferredTest (t : TestData)
deriving DecidableEq

/-- `handleTest` of printer.ts: a skipped test yields the literal ignored
line, any other mode yields the deferred producer. -/
def handleTest (t : TestData) : PotentialMessage :=
  if t.mode = "skip" then .literal (.testIgnored t.id) else .deferredTest t

/-- Evaluation of the deferred producer built by `handleTest`, reading the
task results and the console-log buffer as they are at flush time. -/
def evalDeferred (ρ : ResultEnv) (cmap : ConsoleMap) (t : TestData) : List Line :=
  let logsMessages := (cmap t.id).map fun l => Line.testLog t.id l.channel l.content
  let filedMessages :=
    if testFails ρ t then (getTestErrors ρ t).map (Line.testFailed t.id) else []
  Line.testStarted t.id :: logsMessages ++ filedMessages ++
    [Line.testFinished t.id (((ρ t.id).bind TaskResult.duration).getD 0)]

/-- Evaluation of one buffered message at flush time (`typeof message ===
'string' ? message : message()`, flattened). -/
def evalMessage (ρ : ResultEnv) (cmap : ConsoleMap) : PotentialMessage → List Line
  | .literal l => [l]
  | .deferredTest t => evalDeferred ρ cmap t

mutual

/-- `handleTask` of printer.ts: a test yields its single template, a suite in
`"run"` mode yields its bracket around its children, anything else yields
nothing. -/
def handleTask : Task → List PotentialMessage
  | .test d => [handleTest d]
  | .suite _ n m fid ts =>
    if m = "run" then
      .literal (.suiteStarted fid (escape n)) ::
        handleTasks ts ++ [.literal (.suiteFinished fid (escape n))]
    else []
  | .custom _ _ => []

/-- `tasks.flatMap(this.handleTask)`. -/
def handleTasks : List Task → List PotentialMessage
  | [] => []
  | t :: ts => handleTask t ++ handleTasks ts

end

/-- The template sequence `addFile` builds for a file: the file's own
started/finished bracket around the walk of its tasks. -/
def buildFileMessages (f : File) : List PotentialMessage :=
  .literal (.suiteStarted f.id (escape f.name)) ::
    handleTasks f.tasks ++ [.literal (.suiteFinished f.id (escape f.name))]

/-- Association-list lookup (JS `Map.get`). -/
def mapLookup {α : Type} : List (String × α) → String → Option α
  | [], _ => none
  | (k, v) :: rest, key => if k = key then some v else mapLookup rest key

/-- Association-list update (JS `Map.set`: replace in place, else append). -/
def mapSet {α : Type} : List (String × α) → String → α → List (String × α)
  | [], key, v => [(key, v)]
  | (k, w) :: rest, key, v =>
    if k = key then (k, v) :: rest else (k, w) :: mapSet rest key v

/-- Association-list removal (JS `Map.delete`). -/
def mapErase {α : Type} : List (String × α) → String → List (String × α)
  | [], _ => []
  | (k, v) :: rest, key =>
    if k = key then mapErase rest key else (k, v) :: mapErase rest key

/-- The two owned buffers of the `Printer` instance. -/
structure PrinterState where
  fileMessageMap : List (String × List PotentialMessage)
  testConsoleMap : List (String × List UserConsoleLog)
deriving DecidableEq

/-- `this.testConsoleMap.get(test.id) ?? []`. -/
def consoleLookup (st : PrinterState) : ConsoleMap :=
  fun id => (mapLookup st.testConsoleMap id).getD []

/-- `addFile` of printer.ts: build the file's templates and store them under
the file id. -/
def addFile (st : PrinterState) (f : File) : PrinterState :=
  { st with fileMessageMap := mapSet st.fileMessageMap f.id (buildFileMessages f) }

/-- The mutation `addTestConsoleLog` performs on the console buffer:
append to the existing list, or create a singleton list. -/
def recordLog (m : List (String × List UserConsoleLog)) (id : String)
    (log : UserConsoleLog) : List (String × List UserConsoleLog) :=
  match mapLookup m id with
  | some msgs => mapSet m id (msgs ++ [log])
  | none => mapSet m id [log]

/-- `addTestConsoleLog` of printer.ts. -/
def addTestConsoleLog (st : PrinterState) (id : String) (log : UserConsoleLog) :
    PrinterState :=
  { st with testConsoleMap := recordLog st.testConsoleMap id log }

/-- `handeUpdate` of printer.ts (sic).  Returns the new state together with
the lines handed to `logger.console.info`, in order. -/
def handeUpdate (ρ : ResultEnv) (st : PrinterState) (id : String)
    (result : Option TaskResult) : PrinterState × List Line :=
  match mapLookup st.fileMessageMap id, result with
  | some messages, some r =>
    if r.state = "run" then (st, [])
    else
      ({ st with fileMessageMap := mapErase st.fileMessageMap id },
        messages.flatMap (evalMessage ρ (consoleLookup st)))
  | _, _ => (st, [])

/-- An event delivered to the reporter while a run is in progress. -/
inductive Event where
  | stateChange (id : String) (result : Option TaskResult)
  | consoleLog (id : String) (log : UserConsoleLog)

/-- Dispatch of one event to the `Printer`. -/
def step (ρ : ResultEnv) (st : PrinterState) : Event → PrinterState × List Line
  | .consoleLog id log => (addTestConsoleLog st id log, [])
  | .stateChange id result => handeUpdate ρ st id result

/-- A run of events; collects all emitted lines in order. -/
def run (ρ : ResultEnv) (st : PrinterState) : List Event → PrinterState × List Line
  | [] => (st, [])
  | e :: es =>
    let p := step ρ st e
    let q := run ρ p.1 es
    (q.1, p.2 ++ q.2)

/-- `isAtomTest` of printer.ts: `s.type === 'test' || s.type === 'custom'`. -/
def isAtomTest : Task → Bool
  | .test _ => true
  | .custom _ _ => true
  | .suite _ _ _ _ _ => false

mutual

/-- One element of `getSuites`'s flatMap:
`s.type === 'suite' ? [s, ...this.getSuites(s.tasks)] : []`. -/
def getSuitesTask : Task → List Task
  | .test _ => []
  | .custom _ _ => []
  | .suite i n m fid ts => .suite i n m fid ts :: getSuites ts

/-- `getSuites` of printer.ts, on a list of tasks. -/
def getSuites : List Task → List Task
  | [] => []
  | t :: ts => getSuitesTask t ++ getSuites ts

end

mutual

/-- `getTests` of printer.ts applied to a single task (the source wraps a
non-array argument into a one-element array via `toArray`; the loop body for
that sole element is this function). -/
def getTestsSingle : Task → List Task
  | .test d => [.test d]
  | .custom i n => [.custom i n]
  | .suite _ _ _ _ ts => getTestsInner ts

/-- The inner loop of `getTests` over a suite's `tasks`: an atomic task is
collected, anything else recurses via `getTests(task)`. -/
def getTestsInner : List Task → List Task
  | [] => []
  | t :: ts =>
    (if isAtomTest t then [t] else getTestsSingle t) ++ getTestsInner ts

end

/-- `getTests` of printer.ts on a list: the outer for-loop.  Its body for one
element `s` — `s` itself when atomic, otherwise the inner loop over
`s.tasks` — coincides with `getTestsSingle s`. -/
def getTests : List Task → List Task
  | [] => []
  | s :: rest => getTestsSingle s ++ getTests rest

/-- One entry of `summary.suiteErrors`: `{ file: suite.name, error:
error.stack }`.  The `error` field is the raw `stack`, which may be absent. -/
structure SuiteError where
  file : String
  error : Option String
deriving DecidableEq

/-- `TestRunSummary` of printer.ts. -/
structure TestRunSummary where
  failedSuitesCount : Nat
  totalSuitesCount : Nat
  failedTestsCount : Nat
  totalTestsCount : Nat
  suiteErrors : List SuiteError
deriving DecidableEq

/-- The filter of `failedSuites`: `i.result?.errors` is truthy exactly when
the result exists and carries an `errors` array — even an empty one. -/
def suiteHasErrorsField (ρ : ResultEnv) (s : Task) : Bool :=
  (resErrors ρ s.id).isSome

/-- The filter of `failedTests`: `i.result?.state === 'fail'`. -/
def testStateFail (ρ : ResultEnv) (t : Task) : Bool :=
  match ρ t.id with
  | some r => r.state == "fail"
  | none => false

/-- The `suiteErrors` entries one failed suite contributes: one per error of
`suite.result?.errors || []`, each `{ file: suite.name, error: error.stack }`. -/
def suiteEntryFn (ρ : ResultEnv) (s : Task) : List SuiteError :=
  ((resErrors ρ s.id).getD []).map fun e => SuiteError.mk s.name e.stack

/-- The summary computation of `writeSummary` in printer.ts.  The source
reads a free variable `files` and forwards the summary to an unassigned
`this.printer` field; per spec §6 the tree is the `rootTasks` handed to the
run-complete hook, so the computation is modelled as a function of it and the
resulting summary is returned. -/
def writeSummary (ρ : ResultEnv) (files : List Task) : TestRunSummary :=
  let suites := getSuites files
  let tests := getTests files
  let failedSuites := suites.filter (suiteHasErrorsField ρ)
  let failedTests := tests.filter (testStateFail ρ)
  { failedSuitesCount := failedSuites.length
    totalSuitesCount := suites.length
    failedTestsCount := failedTests.length
    totalTestsCount := tests.length
    suiteErrors := failedSuites.flatMap (suiteEntryFn ρ) }

/-! Specification-side definitions, written from the spec's words, to be
compared with the source-derived definitions above. -/

mutual

/-- Spec-side: number of suite-kind tasks in a task (recursively, nested
suites included) that satisfy `p`. -/
def countSuitesP (p : Task → Bool) : Task → Nat
  | .test _ => 0
  | .custom _ _ => 0
  | .suite i n m fid ts =>
    (if p (.suite i n m fid ts) then 1 else 0) + countSuitesPList p ts

/-- Spec-side: number of suite-kind tasks under a list of tasks satisfying
`p`. -/
def countSuitesPList (p : Task → Bool) : List Task → Nat
  | [] => 0
  | t :: ts => countSuitesP p t + countSuitesPList p ts

end

mutual

/-- Spec-side: number of leaf (atomic) tasks in a task satisfying `p`. -/
def countLeavesP (p : Task → Bool) : Task → Nat
  | .test d => if p (.test d) then 1 else 0
  | .custom i n => if p (.custom i n) then 1 else 0
  | .suite _ _ _ _ ts => countLeavesPList p ts

/-- Spec-side: number of leaf (atomic) tasks under a list of tasks satisfying
`p`. -/
def countLeavesPList (p : Task → Bool) : List Task → Nat
  | [] => 0
  | t :: ts => countLeavesP p t + countLeavesPList p ts

end

/-- Spec-side: a suite whose own result carries at least one error (claim
C6's notion of a failed suite). -/
def suiteAtLeastOneError (ρ : ResultEnv) (s : Task) : Bool :=
  match resErrors ρ s.id with
  | some (_ :: _) => true
  | _ => false

mutual

/-- Spec-side (amended C7): the suite-error entries contributed by one task,
in pre-order — for every suite whose result has an errors field, one entry
per error pairing the suite's name with that error's stack. -/
def suiteErrorsOfTask (ρ : ResultEnv) : Task → List SuiteError
  | .test _ => []
  | .custom _ _ => []
  | .suite i n m fid ts =>
    (if suiteHasErrorsField ρ (.suite i n m fid ts) then
      ((resErrors ρ i).getD []).map fun e => SuiteError.mk n e.stack
    else []) ++ suiteErrorsOfList ρ ts

/-- Spec-side (amended C7): suite-error entries of a list of tasks. -/
def suiteErrorsOfList (ρ : ResultEnv) : List Task → List SuiteError
  | [] => []
  | t :: ts => suiteErrorsOfTask ρ t ++ suiteErrorsOfList ρ ts

end

/-- Spec-side (claim C7 as stated): like `suiteErrorsOfList` but the text of
an entry is the error's diagnostic text, "its stack or its message". -/
def suiteErrorsSpecC7 (ρ : ResultEnv) (files : List Task) : List SuiteError :=
  ((getSuites files).filter (suiteHasErrorsField ρ)).flatMap fun s =>
    ((resErrors ρ s.id).getD []).map fun e =>
      SuiteError.mk s.name (some (e.stack.getD e.message))

/-- Spec-side (claim C1 as stated): error resolution that falls through to
the suite when the test's own result errors are "absent or empty", then to
the file when still absent, then to the synthetic error. -/
def errorsSpecC1 (ρ : ResultEnv) (t : TestData) : List ErrorWithDiff :=
  match resErrors ρ t.id with
  | some (e :: es) => e :: es
  | _ =>
    match resErrors ρ t.suiteId with
    | some es => es
    | none =>
      match t.fileId.bind (resErrors ρ) with
      | some es => es
      | none => [missingResultError t]

mutual

/-- Spec-side (C3): direct pre-order emission of one task's lines —
suite-started, then children in declared order, then suite-finished; a
skipped test its ignored line, any other test its started/logs/failures/
finished block; a non-run suite or any other task kind nothing. -/
def preTask (ρ : ResultEnv) (cmap : ConsoleMap) : Task → List Line
  | .test d =>
    if d.mode = "skip" then [.testIgnored d.id] else evalDeferred ρ cmap d
  | .suite _ n m fid ts =>
    if m = "run" then
      .suiteStarted fid (escape n) ::
        preTasks ρ cmap ts ++ [.suiteFinished fid (escape n)]
    else []
  | .custom _ _ => []

/-- Spec-side (C3): pre-order emission of a list of tasks. -/
def preTasks (ρ : ResultEnv) (cmap : ConsoleMap) : List Task → List Line
  | [] => []
  | t :: ts => preTask ρ cmap t ++ preTasks ρ cmap ts

end

/-- Spec-side (C3): the full pre-order line sequence of a file. -/
def preOrderLines (ρ : ResultEnv) (cmap : ConsoleMap) (f : File) : List Line :=
  .suiteStarted f.id (escape f.name) ::
    preTasks ρ cmap f.tasks ++ [.suiteFinished f.id (escape f.name)]

/-- The console-log events of a trace, projected out in order. -/
def consoleProj : List Event → List (String × UserConsoleLog)
  | [] => []
  | .consoleLog id log :: es => (id, log) :: consoleProj es
  | .stateChange _ _ :: es => consoleProj es

/-- Replay a sequence of console-log events into the console buffer. -/
def applyLogs (m : List (String × List UserConsoleLog)) :
    List (String × UserConsoleLog) → List (String × List UserConsoleLog)
  | [] => m
  | (id, log) :: rest => applyLogs (recordLog m id log) rest

/-- An event that is not a terminal notification for file id `k`: any
console log, and any state change that is for a different id, carries no
result, or is still `"run"`. -/
def notTerminalFor (k : String) : Event → Bool
  | .consoleLog _ _ => true
  | .stateChange id r =>
    if id = k then
      match r with
      | none => true
      | some x => x.state == "run"
    else true

/-! Concrete fixtures used by witnesses and counterexamples. -/

/-- A result environment with no results at all. -/
def rho0 : ResultEnv := fun _ => none

/-- An empty console buffer view. -/
def cmap0 : ConsoleMap := fun _ => []

/-- A suite-level error. -/
def e1 : ErrorWithDiff := ⟨"suite-level failure", some "stack-s1"⟩

/-- A test whose own result carries an empty error list while its suite
carries `e1`. -/
def t1 : TestData := ⟨"t1", "test one", "run", "s1", none⟩

/-- Results for the `t1` scenario: the test failed with an empty `errors`
array, the suite has one error. -/
def rho1 : ResultEnv := fun id =>
  if id = "t1" then some ⟨"fail", some 3, some []⟩
  else if id = "s1" then some ⟨"fail", none, some [e1]⟩
  else none

/-- A suite-level error for the `t2` scenario. -/
def e2 : ErrorWithDiff := ⟨"assertion failed", some "stack-s2"⟩

/-- A failing test with no result of its own. -/
def t2 : TestData := ⟨"t2", "test two", "run", "s2", none⟩

/-- Results for the `t2` scenario: only the suite has a result, with one
error. -/
def rho2 : ResultEnv := fun id =>
  if id = "s2" then some ⟨"fail", none, some [e2]⟩ else none

/-- A suite-level error with no stack. -/
def e3 : ErrorWithDiff := ⟨"suite exploded", none⟩

/-- A test with no result object at all whose suite carries `e3`. -/
def t3 : TestData := ⟨"t3", "test three", "run", "s3", none⟩

/-- Results for the `t3` scenario. -/
def rho3 : ResultEnv := fun id =>
  if id = "s3" then some ⟨"pass", some 7, some [e3]⟩ else none

/-- A test with two console logs recorded. -/
def t4 : TestData := ⟨"t4", "test four", "run", "s4", none⟩

/-- Two console-log events. -/
def logA : UserConsoleLog := ⟨"stdout", "hello"⟩

/-- A second console-log event. -/
def logB : UserConsoleLog := ⟨"stderr", "oops"⟩

/-- Console buffer view with two logs for `t4`. -/
def cmap2 : ConsoleMap := fun id => if id = "t4" then [logA, logB] else []

/-- A test in `"todo"` mode. -/
def t5 : TestData := ⟨"t5", "test five", "todo", "s5", none⟩

/-- A non-skipped test with no result anywhere in its chain. -/
def t6 : TestData := ⟨"t6", "test six", "run", "s6", none⟩

/-- A root task list holding one suite. -/
def files6 : List Task := [Task.suite "sx6" "suite six" "run" "f6" []]

/-- Results for `files6`: the suite's result carries an *empty* errors
array. -/
def rho6 : ResultEnv := fun id =>
  if id = "sx6" then some ⟨"pass", none, some []⟩ else none

/-- A root task list holding one failed suite. -/
def files7 : List Task := [Task.suite "sx7" "suite seven" "run" "f7" []]

/-- Results for `files7`: the suite carries one error whose stack is absent
but whose message is present. -/
def rho7 : ResultEnv := fun id =>
  if id = "sx7" then some ⟨"fail", none, some [e3]⟩ else none

/-- A buffered template sequence for a file `"fw"` containing the deferred
producer of test `t2`. -/
def msgsW : List PotentialMessage :=
  [.literal (.suiteStarted "fw" "file w"), .deferredTest t2,
    .literal (.suiteFinished "fw" "file w")]

/-- A printer state with one pending file entry and one console-log entry
for that file's test `t2`. -/
def stW : PrinterState := ⟨[("fw", msgsW)], [("t2", [logA])]⟩

/-- A terminal (non-`"run"`) result. -/
def rW : TaskResult := ⟨"pass", some 4, none⟩

/-- The empty printer state. -/
def st0 : PrinterState := ⟨[], []⟩

/-- A test inside the file `fW`. -/
def tz : TestData := ⟨"tz", "test z", "run", "sz", none⟩

/-- A small file: one suite containing one test. -/
def fW : File := ⟨"fz", "file z", [Task.suite "sz" "suite z" "run" "fz" [.test tz]]⟩

/-- Results for the `fW` scenario. -/
def rhoz : ResultEnv := fun id =>
  if id = "tz" then some ⟨"pass", some 2, none⟩ else none

/-- A trace: a console log for `tz`, then a non-file state change. -/
def trW1 : List Event :=
  [.consoleLog "tz" logA, .stateChange "tz" (some ⟨"pass", some 2, none⟩)]

/-- The same two events in the opposite arrival order. -/
def trW2 : List Event :=
  [.stateChange "tz" (some ⟨"pass", some 2, none⟩), .consoleLog "tz" logA]

end VReporter

namespace VReporter

/-! Association-list (JS `Map`) lemmas. -/

theorem mapLookup_mapSet_self {α : Type} (m : List (String × α)) (k : String)
    (v : α) : mapLookup (mapSet m k v) k = some v := by
  induction m with
  | nil => simp [mapSet, mapLookup]
  | cons hd tl ih =>
    obtain ⟨k', v'⟩ := hd
    by_cases h : k' = k <;> simp [mapSet, mapLookup, h, ih]

theorem mapLookup_mapSet_ne {α : Type} (m : List (String × α)) (k k' : String)
    (v : α) (h : k' ≠ k) : mapLookup (mapSet m k v) k' = mapLookup m k' := by
  induction m with
  | nil => simp [mapSet, mapLookup, Ne.symm h]
  | cons hd tl ih =>
    obtain ⟨k₀, v₀⟩ := hd
    by_cases h₀ : k₀ = k
    · subst h₀; simp [mapSet, mapLookup, Ne.symm h]
    · simp [mapSet, mapLookup, h₀, ih]

theorem mapLookup_mapErase_self {α : Type} (m : List (String × α)) (k : String) :
    mapLookup (mapErase m k) k = none := by
  induction m with
  | nil => simp [mapErase, mapLookup]
  | cons hd tl ih =>
    obtain ⟨k₀, v₀⟩ := hd
    by_cases h₀ : k₀ = k <;> simp [mapErase, mapLookup, h₀, ih]

theorem mapLookup_mapErase_ne {α : Type} (m : List (String × α)) (k k' : String)
    (h : k' ≠ k) : mapLookup (mapErase m k) k' = mapLookup m k' := by
  induction m with
  | nil => simp [mapErase, mapLookup]
  | cons hd tl ih =>
    obtain ⟨k₀, v₀⟩ := hd
    by_cases h₀ : k₀ = k
    · subst h₀; simp [mapErase, mapLookup, Ne.symm h, ih]
    · simp [mapErase, mapLookup, h₀, ih]

theorem mapLookup_mapSet_isSome {α : Type} (m : List (String × α))
    (k k' : String) (v : α) (h : (mapLookup m k').isSome) :
    (mapLookup (mapSet m k v) k').isSome := by
  by_cases hk : k' = k
  · subst hk; simp [mapLookup_mapSet_self]
  · rwa [mapLookup_mapSet_ne m k k' v hk]

theorem mapLookup_recordLog_isSome (m : List (String × List UserConsoleLog))
    (id k : String) (log : UserConsoleLog) (h : (mapLookup m k).isSome) :
    (mapLookup (recordLog m id log) k).isSome := by
  unfold recordLog
  cases mapLookup m id <;> exact mapLookup_mapSet_isSome m id k _ h

/-! Claim theorems and their witnesses / counterexamples. -/

/-- C8: for every task visited by the tree walker that is a suite whose run
mode is not `"run"`, or that is of any kind other than test or suite, the
walker produces no message templates at all: the task contributes nothing to
the file's buffered sequence. -/
theorem handleTask_non_run_suite_and_other_kinds_contribute_nothing :
    (∀ i n m fid ts, m ≠ "run" → handleTask (.suite i n m fid ts) = []) ∧
    (∀ i n, handleTask (.custom i n) = []) := by
  constructor
  · intro i n m fid ts hm
    simp [handleTask, hm]
  · intro i n
    simp [handleTask]

/-- Witness for C8 at concrete inputs: a `"skip"`-mode suite with a child and
a custom task both contribute nothing. -/
theorem handleTask_non_run_suite_and_other_kinds_witness :
    handleTask (.suite "s8" "suite eight" "skip" "f8" [.test t1]) = [] ∧
    handleTask (.custom "c8" "custom eight") = [] :=
  ⟨handleTask_non_run_suite_and_other_kinds_contribute_nothing.1
      "s8" "suite eight" "skip" "f8" [.test t1] (by decide),
    handleTask_non_run_suite_and_other_kinds_contribute_nothing.2
      "c8" "custom eight"⟩

/-- C10: for every test whose mode is anything other than `"skip"` —
including modes outside {run, skip} such as `"todo"` or `"only"` — the walker
produces the full deferred producer template, never the ignored line. -/
theorem handleTest_only_skip_yields_ignored (t : TestData)
    (h : t.mode ≠ "skip") : handleTest t = .deferredTest t := by
  simp [handleTest, h]

/-- Witness for C10: a `"todo"`-mode test yields the deferred producer. -/
theorem handleTest_only_skip_yields_ignored_witness :
    handleTest t5 = PotentialMessage.deferredTest t5 :=
  handleTest_only_skip_yields_ignored t5 (by decide)

/-- Counterexample to C1 as stated: for a failing test whose own result
carries an *empty* error list while its suite carries one error, the code
keeps the empty list (nullish coalescing does not fall through on an empty
array), while the claim's resolution falls through to the suite. -/
theorem getTestErrors_empty_does_not_fall_through :
    getTestErrors rho1 t1 = [] ∧ errorsSpecC1 rho1 t1 = [e1] ∧
    getTestErrors rho1 t1 ≠ errorsSpecC1 rho1 t1 := by
  refine ⟨by decide, by decide, by decide⟩

/-- C1 amended: the error list of a failing test is resolved by trying, in
order, the test's own result errors *if present (even when empty)*; only
when absent the owning suite's, then the owning file's, then exactly one
synthetic missing-result error.  For a failing test with *absent* test-level
errors but suite-level errors, the emitted failure lines carry the suite's
errors, not a synthetic one. -/
theorem getTestErrors_fallback_on_absent_only (ρ : ResultEnv) (t : TestData) :
    (∀ es, resErrors ρ t.id = some es → getTestErrors ρ t = es) ∧
    (resErrors ρ t.id = none →
      ∀ es, resErrors ρ t.suiteId = some es → getTestErrors ρ t = es) ∧
    (resErrors ρ t.id = none → resErrors ρ t.suiteId = none →
      ∀ es, t.fileId.bind (resErrors ρ) = some es → getTestErrors ρ t = es) ∧
    (resErrors ρ t.id = none → resErrors ρ t.suiteId = none →
      t.fileId.bind (resErrors ρ) = none →
      getTestErrors ρ t = [missingResultError t]) ∧
    (∀ cmap es, resErrors ρ t.id = none → resErrors ρ t.suiteId = some es →
      testFails ρ t = true →
      evalDeferred ρ cmap t =
        Line.testStarted t.id ::
          ((cmap t.id).map fun l => Line.testLog t.id l.channel l.content) ++
          es.map (Line.testFailed t.id) ++
          [Line.testFinished t.id (((ρ t.id).bind TaskResult.duration).getD 0)]) := by
  refine ⟨?_, ?_, ?_, ?_, ?_⟩
  · intro es h
    simp [getTestErrors, h, Option.orElse]
  · intro h es h'
    simp [getTestErrors, h, h', Option.orElse]
  · intro h h' es h''
    simp [getTestErrors, h, h', h'', Option.orElse]
  · intro h h' h''
    simp [getTestErrors, h, h', h'', Option.orElse]
  · intro cmap es h h' hf
    have herr : getTestErrors ρ t = es := by
      simp [getTestErrors, h, h', Option.orElse]
    simp [evalDeferred, hf, herr]

/-- Witness for C1 amended: a failing test with no result of its own inside
a suite with one error emits that suite error. -/
theorem getTestErrors_fallback_on_absent_only_witness :
    getTestErrors rho2 t2 = [e2] ∧
    evalDeferred rho2 cmap0 t2 =
      [Line.testStarted "t2", Line.testFailed "t2" e2,
        Line.testFinished "t2" 0] := by
  have h := getTestErrors_fallback_on_absent_only rho2 t2
  have h5 := h.2.2.2.2 cmap0 [e2] rfl rfl rfl
  exact ⟨h.2.1 rfl [e2] rfl, h5.trans (by decide)⟩

/-- Counterexample to C5's "in particular" clause as stated: a non-skipped
test with no result object at all, whose suite result carries an error, emits
a test-failed line carrying the suite's error — not the synthetic
missing-result error. -/
theorem no_result_with_suite_error_is_not_synthetic :
    evalDeferred rho3 cmap0 t3 =
      [Line.testStarted "t3", Line.testFailed "t3" e3,
        Line.testFinished "t3" 0] ∧
    Line.testFailed "t3" (missingResultError t3) ∉ evalDeferred rho3 cmap0 t3 := by
  refine ⟨by decide, by decide⟩

/-- C5 amended: classification at flush time yields skip if the run mode is
skip; otherwise fail if no result record exists or the result's state is
fail (emitting one test-failed line per resolved error); otherwise pass
(no failure lines).  A non-skipped test with no result object *and no
errors on its owning suite or file* emits a test-failed line carrying the
synthetic missing-result error followed by a test-finished line with
duration 0. -/
theorem classification_at_flush (ρ : ResultEnv) (cmap : ConsoleMap)
    (t : TestData) :
    (t.mode = "skip" →
      evalMessage ρ cmap (handleTest t) = [Line.testIgnored t.id]) ∧
    (t.mode ≠ "skip" →
      (ρ t.id = none ∨ ∃ r, ρ t.id = some r ∧ r.state = "fail") →
      evalMessage ρ cmap (handleTest t) =
        Line.testStarted t.id ::
          ((cmap t.id).map fun l => Line.testLog t.id l.channel l.content) ++
          (getTestErrors ρ t).map (Line.testFailed t.id) ++
          [Line.testFinished t.id (((ρ t.id).bind TaskResult.duration).getD 0)]) ∧
    (t.mode ≠ "skip" → ∀ r, ρ t.id = some r → r.state ≠ "fail" →
      evalMessage ρ cmap (handleTest t) =
        Line.testStarted t.id ::
          ((cmap t.id).map fun l => Line.testLog t.id l.channel l.content) ++
          [Line.testFinished t.id (r.duration.getD 0)]) ∧
    (t.mode ≠ "skip" → ρ t.id = none → resErrors ρ t.suiteId = none →
      t.fileId.bind (resErrors ρ) = none →
      evalMessage ρ cmap (handleTest t) =
        Line.testStarted t.id ::
          ((cmap t.id).map fun l => Line.testLog t.id l.channel l.content) ++
          [Line.testFailed t.id (missingResultError t),
            Line.testFinished t.id 0]) := by
  refine ⟨?_, ?_, ?_, ?_⟩
  · intro h
    simp [evalMessage, handleTest, h]
  · intro h hfail
    have hf : testFails ρ t = true := by
      rcases hfail with h' | ⟨r, hr, hs⟩
      · simp [testFails, h']
      · simp [testFails, hr, hs]
    simp [evalMessage, handleTest, h, evalDeferred, hf]
  · intro h r hr hs
    have hf : testFails ρ t = false := by
      simp [testFails, hr, hs]
    simp [evalMessage, handleTest, h, evalDeferred, hf, hr]
  · intro h hr hsu hfi
    have hf : testFails ρ t = true := by simp [testFails, hr]
    have herr : getTestErrors ρ t = [missingResultError t] := by
      have hre : resErrors ρ t.id = none := by simp [resErrors, hr]
      simp [getTestErrors, hre, hsu, hfi, Option.orElse]
    simp [evalMessage, handleTest, h, evalDeferred, hf, herr, hr]

/-- Witness for C5 amended: concrete instances of the skip, missing-result
and pass clauses. -/
theorem classification_at_flush_witness :
    evalMessage rho0 cmap0 (handleTest t6) =
      [Line.testStarted "t6", Line.testFailed "t6" (missingResultError t6),
        Line.testFinished "t6" 0] ∧
    evalMessage rho1 cmap0 (handleTest t1) =
      [Line.testStarted "t1", Line.testFinished "t1" 3] := by
  constructor
  · have h := (classification_at_flush rho0 cmap0 t6).2.2.2
      (by decide) rfl rfl rfl
    exact h.trans (by decide)
  · have h := (classification_at_flush rho1 cmap0 t1).2.1 (by decide)
      (Or.inr ⟨⟨"fail", some 3, some []⟩, rfl, rfl⟩)
    exact h.trans (by decide)

/-- C4: a skipped test contributes exactly 1 emitted line; any other test
contributes exactly `2 + logCount + (errorCount if it failed, else 0)` lines,
where `logCount` is the number of console-log events recorded for the test
and `errorCount` the number of resolved errors. -/
theorem test_line_counts (ρ : ResultEnv) (cmap : ConsoleMap) (t : TestData) :
    (t.mode = "skip" → (evalMessage ρ cmap (handleTest t)).length = 1) ∧
    (t.mode ≠ "skip" →
      (evalMessage ρ cmap (handleTest t)).length =
        2 + (cmap t.id).length +
          (if testFails ρ t then (getTestErrors ρ t).length else 0)) := by
  constructor
  · intro h
    simp [evalMessage, handleTest, h]
  · intro h
    simp only [evalMessage, handleTest, h, if_neg h, evalDeferred]
    cases hf : testFails ρ t <;>
      simp [hf, List.length_append] <;> omega

/-- Witness for C4: a failing test (missing result, hence one resolved
synthetic error) with two recorded console logs contributes 5 lines; a
skipped test contributes 1. -/
theorem test_line_counts_witness :
    (evalMessage rho0 cmap2 (handleTest t4)).length = 5 ∧
    (evalMessage rho0 cmap0 (handleTest ⟨"t7", "test seven", "skip", "s7", none⟩)).length = 1 := by
  constructor
  · have h := (test_line_counts rho0 cmap2 t4).2 (by decide)
    exact h.trans (by decide)
  · exact (test_line_counts rho0 cmap0 ⟨"t7", "test seven", "skip", "s7", none⟩).1 rfl

/-! Summary lemmas: the `getSuites` / `getTests` pipelines of `writeSummary`
against the spec-side recursive counts. -/

mutual

theorem getSuitesTask_filter_length (p : Task → Bool) :
    ∀ t : Task, ((getSuitesTask t).filter p).length = countSuitesP p t
  | .test _ => by simp [getSuitesTask, countSuitesP]
  | .custom _ _ => by simp [getSuitesTask, countSuitesP]
  | .suite i n m fid ts => by
    cases hp : p (.suite i n m fid ts) <;>
      simp [getSuitesTask, countSuitesP, hp, List.filter_cons,
        getSuites_filter_length p ts] <;> omega

theorem getSuites_filter_length (p : Task → Bool) :
    ∀ ts : List Task, ((getSuites ts).filter p).length = countSuitesPList p ts
  | [] => by simp [getSuites, countSuitesPList]
  | t :: ts => by
    simp [getSuites, countSuitesPList, List.filter_append,
      getSuitesTask_filter_length p t, getSuites_filter_length p ts]

end

mutual

theorem getTestsSingle_filter_length (p : Task → Bool) :
    ∀ t : Task, ((getTestsSingle t).filter p).length = countLeavesP p t
  | .test d => by
    cases hp : p (.test d) <;> simp [getTestsSingle, countLeavesP, hp]
  | .custom i n => by
    cases hp : p (.custom i n) <;> simp [getTestsSingle, countLeavesP, hp]
  | .suite _ _ _ _ ts => by
    simp [getTestsSingle, countLeavesP, getTestsInner_filter_length p ts]

theorem getTestsInner_filter_length (p : Task → Bool) :
    ∀ ts : List Task, ((getTestsInner ts).filter p).length = countLeavesPList p ts
  | [] => by simp [getTestsInner, countLeavesPList]
  | .test d :: ts => by
    cases hp : p (.test d) <;>
      simp [getTestsInner, countLeavesPList, countLeavesP, isAtomTest,
        List.filter_append, hp, getTestsInner_filter_length p ts] <;> omega
  | .custom i n :: ts => by
    cases hp : p (.custom i n) <;>
      simp [getTestsInner, countLeavesPList, countLeavesP, isAtomTest,
        List.filter_append, hp, getTestsInner_filter_length p ts] <;> omega
  | .suite i n m fid ts' :: ts => by
    simp [getTestsInner, countLeavesPList, isAtomTest, List.filter_append,
      getTestsSingle_filter_length p (.suite i n m fid ts'),
      getTestsInner_filter_length p ts]

end

theorem getTests_filter_length (p : Task → Bool) :
    ∀ fs : List Task, ((getTests fs).filter p).length = countLeavesPList p fs
  | [] => by simp [getTests, countLeavesPList]
  | s :: rest => by
    simp [getTests, countLeavesPList, List.filter_append,
      getTestsSingle_filter_length p s, getTests_filter_length p rest]

/-- Counterexample to C6 as stated: a suite whose result carries an *empty*
errors array is counted as failed by the summary, though it carries no
error at all. -/
theorem failed_suites_count_empty_errors :
    (writeSummary rho6 files6).failedSuitesCount = 1 ∧
    countSuitesPList (suiteAtLeastOneError rho6) files6 = 0 ∧
    (writeSummary rho6 files6).failedSuitesCount ≠
      countSuitesPList (suiteAtLeastOneError rho6) files6 := by
  refine ⟨by decide, by decide, by decide⟩

/-- C6 amended: `totalSuitesCount` is the number of suite-kind tasks
encountered recursively, `totalTestsCount` the number of leaf atomic tasks,
`failedTestsCount` the number of leaves whose result state is fail, and
`failedSuitesCount` the number of suites whose own result *has an errors
field present* (possibly empty) — not "at least one error". -/
theorem summary_counts (ρ : ResultEnv) (files : List Task) :
    (writeSummary ρ files).totalSuitesCount =
      countSuitesPList (fun _ => true) files ∧
    (writeSummary ρ files).failedSuitesCount =
      countSuitesPList (suiteHasErrorsField ρ) files ∧
    (writeSummary ρ files).totalTestsCount =
      countLeavesPList (fun _ => true) files ∧
    (writeSummary ρ files).failedTestsCount =
      countLeavesPList (testStateFail ρ) files := by
  refine ⟨?_, ?_, ?_, ?_⟩
  · have h := getSuites_filter_length (fun _ => true) files
    simpa [writeSummary, List.filter_true] using h
  · exact getSuites_filter_length (suiteHasErrorsField ρ) files
  · have h := getTests_filter_length (fun _ => true) files
    simpa [writeSummary, List.filter_true] using h
  · exact getTests_filter_length (testStateFail ρ) files

mutual

theorem getSuitesTask_filter_flatMap (ρ : ResultEnv) :
    ∀ t : Task,
      ((getSuitesTask t).filter (suiteHasErrorsField ρ)).flatMap (suiteEntryFn ρ) =
      suiteErrorsOfTask ρ t
  | .test _ => by simp [getSuitesTask, suiteErrorsOfTask]
  | .custom _ _ => by simp [getSuitesTask, suiteErrorsOfTask]
  | .suite i n m fid ts => by
    have ih := getSuites_filter_flatMap ρ ts
    have hunf : suiteEntryFn ρ (.suite i n m fid ts) =
        ((resErrors ρ i).getD []).map (fun e => SuiteError.mk n e.stack) := rfl
    cases hf : suiteHasErrorsField ρ (.suite i n m fid ts) <;>
      simp [getSuitesTask, suiteErrorsOfTask, hf, List.filter_cons, ih, hunf]

theorem getSuites_filter_flatMap (ρ : ResultEnv) :
    ∀ ts : List Task,
      ((getSuites ts).filter (suiteHasErrorsField ρ)).flatMap (suiteEntryFn ρ) =
      suiteErrorsOfList ρ ts
  | [] => by simp [getSuites, suiteErrorsOfList]
  | t :: ts => by
    simp [getSuites, suiteErrorsOfList, List.filter_append,
      List.flatMap_append, getSuitesTask_filter_flatMap ρ t,
      getSuites_filter_flatMap ρ ts]

end

/-- Counterexample to C7 as stated: for an error whose stack is absent the
summary entry's text is the absent stack, not the error's message. -/
theorem suite_errors_use_stack_only :
    (writeSummary rho7 files7).suiteErrors = [⟨"suite seven", none⟩] ∧
    suiteErrorsSpecC7 rho7 files7 = [⟨"suite seven", some "suite exploded"⟩] ∧
    (writeSummary rho7 files7).suiteErrors ≠ suiteErrorsSpecC7 rho7 files7 := by
  refine ⟨by decide, by decide, by decide⟩

/-- C7 amended: `suiteErrors` contains, for every failed suite, exactly one
entry per error in that suite's result, pairing the suite's display name
with that error's *stack* (which may be absent) — not "stack or message". -/
theorem summary_suite_errors (ρ : ResultEnv) (files : List Task) :
    (writeSummary ρ files).suiteErrors = suiteErrorsOfList ρ files :=
  getSuites_filter_flatMap ρ files

/-- C2: a state-change notification is a no-op (state unchanged, nothing
emitted) when no pending entry exists for the id, the result is absent, or
the state is still `"run"`; otherwise every buffered template of the entry is
evaluated in stored order, the resulting lines are forwarded in order, and
the entry is deleted — so a second terminal notification for the same id is a
no-op and each file is flushed at most once. -/
theorem state_change_flush_semantics (ρ : ResultEnv) (st : PrinterState)
    (id : String) (result : Option TaskResult) :
    (mapLookup st.fileMessageMap id = none →
      handeUpdate ρ st id result = (st, [])) ∧
    (result = none → handeUpdate ρ st id result = (st, [])) ∧
    (∀ r, result = some r → r.state = "run" →
      handeUpdate ρ st id result = (st, [])) ∧
    (∀ msgs r, mapLookup st.fileMessageMap id = some msgs → result = some r →
      r.state ≠ "run" →
      handeUpdate ρ st id result =
        ({ st with fileMessageMap := mapErase st.fileMessageMap id },
          msgs.flatMap (evalMessage ρ (consoleLookup st)))) ∧
    (∀ msgs r, mapLookup st.fileMessageMap id = some msgs → result = some r →
      r.state ≠ "run" → ∀ ρ' result',
      handeUpdate ρ' (handeUpdate ρ st id result).1 id result' =
        ((handeUpdate ρ st id result).1, [])) := by
  refine ⟨?_, ?_, ?_, ?_, ?_⟩
  · intro h
    cases result <;> simp [handeUpdate, h]
  · intro h
    subst h
    cases hm : mapLookup st.fileMessageMap id <;> simp [handeUpdate, hm]
  · intro r hr hs
    subst hr
    cases hm : mapLookup st.fileMessageMap id <;> simp [handeUpdate, hm, hs]
  · intro msgs r hm hr hs
    subst hr
    simp [handeUpdate, hm, hs]
  · intro msgs r hm hr hs ρ' result'
    subst hr
    cases result' <;> simp [handeUpdate, hm, hs, mapLookup_mapErase_self]

/-- Witness for C2: a concrete pending entry is flushed (emitting its
evaluated templates and deleting the entry), a second identical notification
is a no-op, and a notification for an unknown id is a no-op. -/
theorem state_change_flush_semantics_witness :
    handeUpdate rho2 stW "fw" (some rW) =
      ({ stW with fileMessageMap := mapErase stW.fileMessageMap "fw" },
        msgsW.flatMap (evalMessage rho2 (consoleLookup stW))) ∧
    handeUpdate rho2 (handeUpdate rho2 stW "fw" (some rW)).1 "fw" (some rW) =
      ((handeUpdate rho2 stW "fw" (some rW)).1, []) ∧
    handeUpdate rho2 stW "zz" (some rW) = (stW, []) := by
  have h := state_change_flush_semantics rho2 stW "fw" (some rW)
  refine ⟨h.2.2.2.1 msgsW rW (by decide) rfl (by decide),
    h.2.2.2.2 msgsW rW (by decide) rfl (by decide) rho2 (some rW), ?_⟩
  exact (state_change_flush_semantics rho2 stW "zz" (some rW)).1 (by decide)

/-- Counterexample to C9 as stated: after a file's flush completes, the
per-test console-log buffer entry of that file's test is still present —
it is not reclaimed. -/
theorem console_buffer_not_reclaimed_on_flush :
    mapLookup stW.fileMessageMap "fw" = some msgsW ∧
    mapLookup (handeUpdate rho2 stW "fw" (some rW)).1.fileMessageMap "fw" = none ∧
    mapLookup (handeUpdate rho2 stW "fw" (some rW)).1.testConsoleMap "t2" =
      some [logA] := by
  refine ⟨by decide, by decide, by decide⟩

/-- C9 amended: after a file's flush, the per-file pending entry is removed,
but the per-test console-log buffer is left untouched — it is never
reclaimed.  Deletion-on-flush is the only reclamation mechanism for the
per-file buffer: neither log recording nor file registration removes an
entry from either buffer. -/
theorem flush_only_reclaims_file_entry (ρ : ResultEnv) (st : PrinterState)
    (id : String) (result : Option TaskResult) :
    (handeUpdate ρ st id result).1.testConsoleMap = st.testConsoleMap ∧
    (∀ msgs r, mapLookup st.fileMessageMap id = some msgs → result = some r →
      r.state ≠ "run" →
      mapLookup (handeUpdate ρ st id result).1.fileMessageMap id = none) ∧
    (∀ tid log, (addTestConsoleLog st tid log).fileMessageMap =
      st.fileMessageMap) ∧
    (∀ tid log k, (mapLookup st.testConsoleMap k).isSome →
      (mapLookup (addTestConsoleLog st tid log).testConsoleMap k).isSome) ∧
    (∀ f, (addFile st f).testConsoleMap = st.testConsoleMap) ∧
    (∀ f k, (mapLookup st.fileMessageMap k).isSome →
      (mapLookup (addFile st f).fileMessageMap k).isSome) := by
  refine ⟨?_, ?_, ?_, ?_, ?_, ?_⟩
  · cases hm : mapLookup st.fileMessageMap id with
    | none => cases result <;> simp [handeUpdate, hm]
    | some msgs =>
      cases result with
      | none => simp [handeUpdate, hm]
      | some r => by_cases hs : r.state = "run" <;> simp [handeUpdate, hm, hs]
  · intro msgs r hm hr hs
    subst hr
    simp [handeUpdate, hm, hs, mapLookup_mapErase_self]
  · intro tid log
    rfl
  · intro tid log k h
    exact mapLookup_recordLog_isSome st.testConsoleMap tid k log h
  · intro f
    rfl
  · intro f k h
    exact mapLookup_mapSet_isSome st.fileMessageMap f.id k _ h

/-- Witness for C9 amended: on the concrete state `stW`, the flush removes
the pending file entry and leaves the console buffer exactly as it was. -/
theorem flush_only_reclaims_file_entry_witness :
    (handeUpdate rho0 stW "fw" (some rW)).1.testConsoleMap = stW.testConsoleMap ∧
    mapLookup (handeUpdate rho0 stW "fw" (some rW)).1.fileMessageMap "fw" =
      none := by
  have h := flush_only_reclaims_file_entry rho0 stW "fw" (some rW)
  exact ⟨h.1, h.2.1 msgsW rW (by decide) rfl (by decide)⟩

/-! Lemmas for C3: what a run of events does to the two buffers, and the
refinement of buffered-template evaluation by direct pre-order traversal. -/

theorem handeUpdate_testConsoleMap (ρ : ResultEnv) (st : PrinterState)
    (id : String) (result : Option TaskResult) :
    (handeUpdate ρ st id result).1.testConsoleMap = st.testConsoleMap := by
  cases hm : mapLookup st.fileMessageMap id with
  | none => cases result <;> simp [handeUpdate, hm]
  | some msgs =>
    cases result with
    | none => simp [handeUpdate, hm]
    | some r => by_cases hs : r.state = "run" <;> simp [handeUpdate, hm, hs]

theorem step_preserves_entry (ρ : ResultEnv) (k : String) (e : Event)
    (st : PrinterState) (h : notTerminalFor k e = true) :
    mapLookup (step ρ st e).1.fileMessageMap k = mapLookup st.fileMessageMap k := by
  cases e with
  | consoleLog id log => rfl
  | stateChange id r =>
    cases hm : mapLookup st.fileMessageMap id with
    | none => cases r <;> simp [step, handeUpdate, hm]
    | some msgs =>
      cases r with
      | none => simp [step, handeUpdate, hm]
      | some r' =>
        by_cases hs : r'.state = "run"
        · simp [step, handeUpdate, hm, hs]
        · have hne : k ≠ id := by
            intro hk
            subst hk
            simp [notTerminalFor] at h
            exact hs h
          simp [step, handeUpdate, hm, hs, mapLookup_mapErase_ne _ id k hne]

theorem run_preserves_entry (ρ : ResultEnv) (k : String) :
    ∀ (tr : List Event) (st : PrinterState),
      (∀ e ∈ tr, notTerminalFor k e = true) →
      mapLookup (run ρ st tr).1.fileMessageMap k = mapLookup st.fileMessageMap k
  | [], _, _ => rfl
  | e :: es, st, h => by
    have h1 := h e (List.mem_cons_self e es)
    have h2 : ∀ e' ∈ es, notTerminalFor k e' = true := fun e' he' =>
      h e' (List.mem_cons_of_mem e he')
    calc mapLookup (run ρ st (e :: es)).1.fileMessageMap k
        = mapLookup (run ρ (step ρ st e).1 es).1.fileMessageMap k := rfl
      _ = mapLookup (step ρ st e).1.fileMessageMap k :=
          run_preserves_entry ρ k es (step ρ st e).1 h2
      _ = mapLookup st.fileMessageMap k := step_preserves_entry ρ k e st h1

theorem run_testConsoleMap (ρ : ResultEnv) :
    ∀ (tr : List Event) (st : PrinterState),
      (run ρ st tr).1.testConsoleMap = applyLogs st.testConsoleMap (consoleProj tr)
  | [], _ => rfl
  | .consoleLog id log :: es, st => by
    show (run ρ (addTestConsoleLog st id log) es).1.testConsoleMap =
      applyLogs (recordLog st.testConsoleMap id log) (consoleProj es)
    exact run_testConsoleMap ρ es (addTestConsoleLog st id log)
  | .stateChange id r :: es, st => by
    show (run ρ (handeUpdate ρ st id r).1 es).1.testConsoleMap =
      applyLogs st.testConsoleMap (consoleProj es)
    rw [run_testConsoleMap ρ es (handeUpdate ρ st id r).1,
      handeUpdate_testConsoleMap ρ st id r]

mutual

theorem handleTask_eval (ρ : ResultEnv) (cmap : ConsoleMap) :
    ∀ t : Task, (handleTask t).flatMap (evalMessage ρ cmap) = preTask ρ cmap t
  | .test d => by
    by_cases h : d.mode = "skip" <;>
      simp [handleTask, handleTest, preTask, h, evalMessage]
  | .custom _ _ => by simp [handleTask, preTask]
  | .suite i n m fid ts => by
    by_cases h : m = "run"
    · simp [handleTask, preTask, h, evalMessage, List.flatMap_append,
        handleTasks_eval ρ cmap ts]
    · simp [handleTask, preTask, h]

theorem handleTasks_eval (ρ : ResultEnv) (cmap : ConsoleMap) :
    ∀ ts : List Task,
      (handleTasks ts).flatMap (evalMessage ρ cmap) = preTasks ρ cmap ts
  | [] => by simp [handleTasks, preTasks]
  | t :: ts => by
    simp [handleTasks, preTasks, List.flatMap_append,
      handleTask_eval ρ cmap t, handleTasks_eval ρ cmap ts]

end

theorem buildFileMessages_eval (ρ : ResultEnv) (cmap : ConsoleMap) (f : File) :
    (buildFileMessages f).flatMap (evalMessage ρ cmap) = preOrderLines ρ cmap f := by
  simp [buildFileMessages, preOrderLines, List.flatMap_append,
    handleTasks_eval ρ cmap f.tasks, evalMessage]

/-- C3: starting from a registered file, running any trace of state-change
and console-log events that contains no terminal notification for the file,
the file's flush emits exactly the pre-order traversal of its task tree
(suite-started, children in declared order, suite-finished); and the emitted
sequence is the same for any two such traces whose console-log events agree,
whatever the relative arrival order of state changes and console logs. -/
theorem flush_emits_preorder_order_independent
    (ρ : ResultEnv) (st : PrinterState) (f : File) (r : TaskResult)
    (tr₁ tr₂ : List Event)
    (hr : r.state ≠ "run")
    (h₁ : ∀ e ∈ tr₁, notTerminalFor f.id e = true)
    (h₂ : ∀ e ∈ tr₂, notTerminalFor f.id e = true)
    (hc : consoleProj tr₁ = consoleProj tr₂) :
    (handeUpdate ρ (run ρ (addFile st f) tr₁).1 f.id (some r)).2 =
      preOrderLines ρ (consoleLookup (run ρ (addFile st f) tr₁).1) f ∧
    (handeUpdate ρ (run ρ (addFile st f) tr₁).1 f.id (some r)).2 =
      (handeUpdate ρ (run ρ (addFile st f) tr₂).1 f.id (some r)).2 := by
  have hm₁ : mapLookup (run ρ (addFile st f) tr₁).1.fileMessageMap f.id =
      some (buildFileMessages f) := by
    rw [run_preserves_entry ρ f.id tr₁ (addFile st f) h₁]
    exact mapLookup_mapSet_self st.fileMessageMap f.id (buildFileMessages f)
  have hm₂ : mapLookup (run ρ (addFile st f) tr₂).1.fileMessageMap f.id =
      some (buildFileMessages f) := by
    rw [run_preserves_entry ρ f.id tr₂ (addFile st f) h₂]
    exact mapLookup_mapSet_self st.fileMessageMap f.id (buildFileMessages f)
  have hcm : (run ρ (addFile st f) tr₁).1.testConsoleMap =
      (run ρ (addFile st f) tr₂).1.testConsoleMap := by
    rw [run_testConsoleMap ρ tr₁, run_testConsoleMap ρ tr₂, hc]
  have hout₁ : (handeUpdate ρ (run ρ (addFile st f) tr₁).1 f.id (some r)).2 =
      (buildFileMessages f).flatMap
        (evalMessage ρ (consoleLookup (run ρ (addFile st f) tr₁).1)) := by
    simp [handeUpdate, hm₁, hr]
  have hout₂ : (handeUpdate ρ (run ρ (addFile st f) tr₂).1 f.id (some r)).2 =
      (buildFileMessages f).flatMap
        (evalMessage ρ (consoleLookup (run ρ (addFile st f) tr₂).1)) := by
    simp [handeUpdate, hm₂, hr]
  have hlook : consoleLookup (run ρ (addFile st f) tr₁).1 =
      consoleLookup (run ρ (addFile st f) tr₂).1 := by
    funext id
    simp [consoleLookup, hcm]
  constructor
  · rw [hout₁, buildFileMessages_eval]
  · rw [hout₁, hout₂, hlook]

/-- Witness for C3: a one-suite one-test file, flushed after a console log
and an unrelated state change delivered in either order, emits the same
pre-order sequence. -/
theorem flush_emits_preorder_order_independent_witness :
    ((handeUpdate rhoz (run rhoz (addFile st0 fW) trW1).1 fW.id (some rW)).2 =
      preOrderLines rhoz (consoleLookup (run rhoz (addFile st0 fW) trW1).1) fW ∧
    (handeUpdate rhoz (run rhoz (addFile st0 fW) trW1).1 fW.id (some rW)).2 =
      (handeUpdate rhoz (run rhoz (addFile st0 fW) trW2).1 fW.id (some rW)).2) :=
  flush_emits_preorder_order_independent rhoz st0 fW rW trW1 trW2
    (by decide) (by decide) (by decide) (by decide)

end VReporter
